import Mathlib

/-!
Verification of the alpacon-mcp request-dispatch pipeline.

The definitions below are a shallow embedding of the Python source:

- `utils/token_manager.py` (`TokenManager.set_token` / `get_token` /
  `remove_token`) becomes explicit state passing over an association-list
  state mirroring the nested region -> workspace -> credential dictionaries.
- `utils/decorators.py` (`with_token_validation`, `with_error_handling`,
  `mcp_tool_handler`) becomes pure functions over a `ToolArgs` record; the
  wrapped tool body is an oracle returning `Except String Envelope`, where
  `Except.error` models a raised Python exception.
- `tools/command_tools.py` (`execute_command`, `get_command_result`,
  `execute_command_sync`, `execute_command_multi_server`) is embedded with
  the remote HTTP client as an oracle; `Except.error` from the oracle models
  an exception raised by the HTTP call.
- `tools/webftp_tools.py` (`webftp_upload_file`) likewise.
- `tools/metrics_tools.py` (`get_server_metrics_summary`): the hour clamp
  and time-range computation.

The modules `utils/common.py` and `utils/error_handler.py` are imported by
the source but are not present in the tree; the definitions for them below
are modelled from the specification and are marked as such in their doc
comments. Python dictionaries are modelled as association lists with
insert-or-overwrite semantics, which preserves key uniqueness and insertion
order exactly as `dict` does. Logging is a side effect that never alters
control flow or envelope contents, so it is modelled as the identity.
-/

namespace AlpaconMCP

/-- A stored credential, mirroring the value dictionary written by
`TokenManager.set_token`. -/
structure Credential where
  token : String
  workspace : String
  region : String
deriving DecidableEq, Repr

/-- One region bucket: workspace name -> credential. -/
abbrev Workspaces := List (String × Credential)

/-- The credential store state: region -> workspace -> credential,
mirroring `TokenManager.tokens`. -/
abbrev Tokens := List (String × Workspaces)

/-- Dictionary lookup on an association list (first match, as Python
dictionaries hold at most one entry per key). -/
def lookupKey {α : Type} (l : List (String × α)) (k : String) : Option α :=
  match l with
  | [] => none
  | (k2, v) :: rest => if k2 = k then some v else lookupKey rest k

/-- Dictionary insert-or-overwrite on an association list, preserving the
position of an existing key and appending a new key at the end, exactly as
assignment to a Python dictionary does. -/
def insertKey {α : Type} (l : List (String × α)) (k : String) (v : α) :
    List (String × α) :=
  match l with
  | [] => [(k, v)]
  | (k2, v2) :: rest =>
    if k2 = k then (k, v) :: rest else (k2, v2) :: insertKey rest k v

/-- Dictionary deletion on an association list (removes the key if present;
`del d[k]` in Python). -/
def eraseKey {α : Type} (l : List (String × α)) (k : String) :
    List (String × α) :=
  l.filter (fun p => p.1 ≠ k)

/-- The acknowledgement dictionary returned by `set_token` and
`remove_token` (only the fields the claims inspect). -/
structure Ack where
  status : String
  message : String
deriving DecidableEq, Repr

/-- `TokenManager.set_token`: creates the region bucket if absent, then
inserts or overwrites the workspace entry, and reports success. File
persistence is a side effect outside the store semantics. -/
def set_token (tokens : Tokens) (region workspace token : String) :
    Tokens × Ack :=
  let bucket := (lookupKey tokens region).getD []
  let bucket2 := insertKey bucket workspace
    { token := token, workspace := workspace, region := region }
  (insertKey tokens region bucket2,
   { status := "success",
     message := "Token saved for " ++ workspace ++ "." ++ region })

/-- `TokenManager.get_token`: pure two-level lookup; `none` models the
Python `None` return. -/
def get_token (tokens : Tokens) (region workspace : String) :
    Option Credential :=
  match lookupKey tokens region with
  | none => none
  | some bucket => lookupKey bucket workspace

/-- `TokenManager.remove_token`: deletes the workspace entry when present,
removes the region bucket entirely when it becomes empty, and reports
success; reports a distinct not-found error when the entry is absent. -/
def remove_token (tokens : Tokens) (region workspace : String) :
    Tokens × Ack :=
  match lookupKey tokens region with
  | some bucket =>
    if (lookupKey bucket workspace).isSome then
      let bucket2 := eraseKey bucket workspace
      let tokens2 :=
        if bucket2 = [] then eraseKey tokens region
        else insertKey tokens region bucket2
      (tokens2,
       { status := "success",
         message := "Token removed for " ++ workspace ++ "." ++ region })
    else
      (tokens,
       { status := "error",
         message := "No token found for " ++ workspace ++ "." ++ region })
  | none =>
    (tokens,
     { status := "error",
       message := "No token found for " ++ workspace ++ "." ++ region })

theorem lookupKey_insertKey_self {α : Type} (l : List (String × α))
    (k : String) (v : α) : lookupKey (insertKey l k v) k = some v := by
  induction l with
  | nil => simp [insertKey, lookupKey]
  | cons p rest ih =>
    by_cases h : p.1 = k
    · simp [insertKey, lookupKey, h]
    · simp [insertKey, lookupKey, h, ih]

theorem lookupKey_insertKey_ne {α : Type} (l : List (String × α))
    (k k2 : String) (v : α) (h : k2 ≠ k) :
    lookupKey (insertKey l k v) k2 = lookupKey l k2 := by
  induction l with
  | nil => simp [insertKey, lookupKey, Ne.symm h]
  | cons p rest ih =>
    by_cases hp : p.1 = k
    · simp [insertKey, lookupKey, hp, Ne.symm h]
    · simp [insertKey, lookupKey, hp, ih]

theorem lookupKey_eraseKey_self {α : Type} (l : List (String × α))
    (k : String) : lookupKey (eraseKey l k) k = none := by
  induction l with
  | nil => simp [eraseKey, lookupKey]
  | cons p rest ih =>
    by_cases h : p.1 = k
    · simpa [eraseKey, lookupKey, h] using ih
    · simpa [eraseKey, lookupKey, h] using ih

theorem get_token_remove_token (s : Tokens) (region workspace : String) :
    get_token (remove_token s region workspace).1 region workspace = none := by
  unfold remove_token
  cases hreg : lookupKey s region with
  | none => simp [get_token, hreg]
  | some bucket =>
    by_cases hws : (lookupKey bucket workspace).isSome
    · simp only [hws, if_true]
      by_cases hemp : eraseKey bucket workspace = []
      · simp [get_token, hemp, lookupKey_eraseKey_self]
      · simp [get_token, hemp, lookupKey_insertKey_self,
          lookupKey_eraseKey_self]
    · simp only [hws, if_false, Bool.false_eq_true]
      simp only [Option.not_isSome_iff_eq_none] at hws
      simp [get_token, hreg, hws]

theorem remove_token_ack_present (s : Tokens) (region workspace : String)
    (h : (get_token s region workspace).isSome = true) :
    (remove_token s region workspace).2 =
      { status := "success",
        message := "Token removed for " ++ workspace ++ "." ++ region } := by
  unfold get_token at h
  cases hreg : lookupKey s region with
  | none => simp [hreg] at h
  | some bucket =>
    simp only [hreg] at h
    simp [remove_token, hreg, h]

theorem remove_token_ack_absent (s : Tokens) (region workspace : String)
    (h : get_token s region workspace = none) :
    (remove_token s region workspace).2 =
      { status := "error",
        message := "No token found for " ++ workspace ++ "." ++ region } := by
  unfold get_token at h
  cases hreg : lookupKey s region with
  | none => simp [remove_token, hreg]
  | some bucket =>
    simp only [hreg] at h
    simp [remove_token, hreg, h]

/-- C5: Credential round-trip. Setting a token for (region, workspace) and
reading it back returns a credential whose token field is the one set, and
removing it (from any state) makes the following read return absent. -/
theorem credential_roundtrip (s : Tokens) (region workspace token : String) :
    get_token (set_token s region workspace token).1 region workspace =
      some { token := token, workspace := workspace, region := region } ∧
    ∀ s2 : Tokens,
      get_token (remove_token s2 region workspace).1 region workspace =
        none := by
  constructor
  · simp [set_token, get_token, lookupKey_insertKey_self]
  · intro s2
    exact get_token_remove_token s2 region workspace

/-- One mutating operation on the credential store. -/
inductive StoreOp where
  | set (region workspace token : String)
  | remove (region workspace : String)
deriving DecidableEq, Repr

/-- Apply one store operation, discarding the acknowledgement. -/
def applyOp (s : Tokens) : StoreOp → Tokens
  | .set region workspace token => (set_token s region workspace token).1
  | .remove region workspace => (remove_token s region workspace).1

/-- Apply a sequence of store operations in order. -/
def applyOps (s : Tokens) (ops : List StoreOp) : Tokens :=
  ops.foldl applyOp s

/-- The store holds no empty region bucket. -/
def noEmptyBuckets (s : Tokens) : Bool :=
  s.all (fun p => !p.2.isEmpty)

theorem mem_insertKey {α : Type} (l : List (String × α)) (k : String)
    (v : α) (p : String × α) (h : p ∈ insertKey l k v) :
    p ∈ l ∨ p = (k, v) := by
  induction l with
  | nil => simpa [insertKey] using h
  | cons q rest ih =>
    by_cases hq : q.1 = k
    · simp only [insertKey, hq, if_true] at h
      rcases List.mem_cons.mp h with h1 | h1
      · right; exact h1
      · left; exact List.mem_cons_of_mem q h1
    · simp only [insertKey, hq, if_false, List.mem_cons] at h
      rcases h with h1 | h1
      · left; exact List.mem_cons.mpr (Or.inl h1)
      · rcases ih h1 with h2 | h2
        · left; exact List.mem_cons_of_mem q h2
        · right; exact h2

theorem noEmptyBuckets_applyOp (s : Tokens) (op : StoreOp)
    (h : noEmptyBuckets s = true) : noEmptyBuckets (applyOp s op) = true := by
  cases op with
  | set region workspace token =>
    simp only [applyOp, set_token]
    simp only [noEmptyBuckets, List.all_eq_true] at h ⊢
    intro p hp
    rcases mem_insertKey _ _ _ _ hp with h1 | h1
    · exact h p h1
    · subst h1
      cases hb : (lookupKey s region).getD [] with
      | nil => simp [insertKey]
      | cons q rest =>
        by_cases hq : q.1 = workspace <;> simp [insertKey, hb, hq]
  | remove region workspace =>
    simp only [applyOp, remove_token]
    cases hreg : lookupKey s region with
    | none => exact h
    | some bucket =>
      by_cases hws : (lookupKey bucket workspace).isSome
      · simp only [hws, if_true]
        by_cases hemp : eraseKey bucket workspace = []
        · simp only [hemp, if_true]
          simp only [noEmptyBuckets, List.all_eq_true] at h ⊢
          intro p hp
          exact h p (List.mem_of_mem_filter hp)
        · simp only [hemp, if_false]
          simp only [noEmptyBuckets, List.all_eq_true] at h ⊢
          intro p hp
          rcases mem_insertKey _ _ _ _ hp with h1 | h1
          · exact h p h1
          · subst h1
            simpa [List.isEmpty_iff] using hemp
      · simp only [hws, if_false]
        exact h


/-- C6: Credential-store invariant. Starting from the empty store, after any
sequence of set_token and remove_token operations the mapping contains no
empty region bucket: removing the last workspace entry under a region
removes the region key entirely. -/
theorem no_empty_region_buckets (ops : List StoreOp) :
    noEmptyBuckets (applyOps [] ops) = true := by
  have key : ∀ l : List StoreOp, ∀ s : Tokens, noEmptyBuckets s = true →
      noEmptyBuckets (applyOps s l) = true := by
    intro l
    induction l with
    | nil => intro s h; exact h
    | cons op rest ih =>
      intro s h
      exact ih _ (noEmptyBuckets_applyOp s op h)
  exact key ops [] rfl

/-- C7: Removing the same (region, workspace) twice yields a success
acknowledgement the first time and a distinct not-found error result the
second time; both calls return results rather than raising (the embedding
is a total function). -/
theorem remove_token_twice (s : Tokens) (region workspace : String)
    (h : (get_token s region workspace).isSome = true) :
    (remove_token s region workspace).2.status = "success" ∧
    (remove_token (remove_token s region workspace).1 region
      workspace).2.status = "error" ∧
    (remove_token s region workspace).2 ≠
      (remove_token (remove_token s region workspace).1 region workspace).2
    := by
  have h1 := remove_token_ack_present s region workspace h
  have h2 := remove_token_ack_absent (remove_token s region workspace).1
    region workspace (get_token_remove_token s region workspace)
  refine ⟨by rw [h1], by rw [h2], ?_⟩
  intro heq
  rw [h1, h2] at heq
  have hst : ("success" : String) = "error" := congrArg Ack.status heq
  exact absurd hst (by decide)

/-- C7 witness: a concrete store holding one credential exhibits the
success-then-not-found behaviour. -/
theorem remove_token_twice_witness :
    ((get_token (set_token [] "ap1" "demo" "tok-1").1 "ap1"
        "demo").isSome = true) ∧
    ((remove_token (set_token [] "ap1" "demo" "tok-1").1 "ap1"
        "demo").2.status = "success" ∧
      (remove_token (remove_token (set_token [] "ap1" "demo" "tok-1").1
        "ap1" "demo").1 "ap1" "demo").2.status = "error" ∧
      (remove_token (set_token [] "ap1" "demo" "tok-1").1 "ap1"
        "demo").2 ≠
        (remove_token (remove_token (set_token [] "ap1" "demo"
          "tok-1").1 "ap1" "demo").1 "ap1" "demo").2) :=
  ⟨by decide, remove_token_twice (set_token [] "ap1" "demo" "tok-1").1
    "ap1" "demo" (by decide)⟩

/-- A single command record as returned by the remote commands endpoint
(only the fields the source reads: `id` and `finished_at`). -/
structure CommandInfo where
  id : String
  finished_at : Option String
deriving DecidableEq, Repr

/-- A parsed remote response body: the commands endpoint may answer with a
single object or an array of objects; other endpoints return opaque data. -/
inductive Body where
  | one (cmd : CommandInfo)
  | many (cmds : List CommandInfo)
  | raw (s : String)
deriving DecidableEq, Repr

/-- The uniform response envelope returned by every tool-facing function
(the fields the claims inspect; absent dictionary keys are `none`). -/
structure Envelope where
  status : String
  message : Option String := none
  field : Option String := none
  data : Option Body := none
  command_id : Option String := none
  region : Option String := none
  workspace : Option String := none
deriving DecidableEq, Repr

/-- Modelled from the spec: `utils/common.py` is absent from the tree.
`error_response(message)` builds the generic error envelope, carrying a
message and no field tag. -/
def error_response (msg : String) : Envelope :=
  { status := "error", message := some msg }

/-- Modelled from the spec: `error_response` with the echoed region and
workspace context keyword arguments, as `with_error_handling` passes. -/
def error_response_ctx (msg workspace region : String) : Envelope :=
  { status := "error", message := some msg,
    workspace := some workspace, region := some region }

/-- Modelled from the spec: `format_validation_error(field, value)` from
the absent `utils/error_handler.py` builds a field-tagged validation error
envelope naming the offending parameter. -/
def format_validation_error (name value : String) : Envelope :=
  { status := "error", field := some name,
    message := some ("Invalid " ++ name ++ ": " ++ value) }

/-- Modelled from the spec: the three-argument form of
`format_validation_error` used for identifier lists; the envelope names the
offending elements and carries the custom message. -/
def format_validation_error_ids (name : String) (values : List String)
    (msg : String) : Envelope :=
  { status := "error", field := some name,
    message := some (msg ++ " Offending: " ++ String.intercalate ", " values) }

/-- Modelled from the spec: `token_error_response(region, workspace)` from
the absent `utils/common.py`; the credential-resolution failure envelope
has a distinct message template and no field tag. -/
def token_error_response (region workspace : String) : Envelope :=
  { status := "error",
    message := some ("No token found for " ++ workspace ++ "." ++ region ++
      ". Please set token first.") }

/-- Modelled from the spec: `validate_region_format` from the absent
`utils/error_handler.py` accepts exactly the closed region enumeration. -/
def validate_region_format (region : String) : Bool :=
  region = "ap1" || region = "us1" || region = "eu1" || region = "dev"

/-- Modelled from the spec: a character allowed in a workspace name
(lowercase alphanumerics, hyphen, and underscore as in the accepted
example test-workspace_123). -/
def workspaceChar (c : Char) : Bool :=
  c.isLower || c.isDigit || c = '-' || c = '_'

/-- Modelled from the spec: `validate_workspace_format` from the absent
`utils/error_handler.py`: non-empty, constrained identifier grammar (the
scan runs over the underlying character list). -/
def validate_workspace_format (w : String) : Bool :=
  !w.data.isEmpty && w.data.all workspaceChar

/-- A hexadecimal digit. -/
def hexDigit (c : Char) : Bool :=
  c.isDigit || ('a' ≤ c && c ≤ 'f') || ('A' ≤ c && c ≤ 'F')

/-- A UUID group of the given length. -/
def uuidGroup (cs : List Char) (n : Nat) : Bool :=
  cs.length == n && cs.all hexDigit

/-- Split a character list on a separator character, mirroring the string
split the source performs on the hyphen. -/
def splitOnChar (sep : Char) : List Char → List (List Char)
  | [] => [[]]
  | c :: rest =>
    let r := splitOnChar sep rest
    if c = sep then [] :: r
    else
      match r with
      | [] => [[c]]
      | g :: gs => (c :: g) :: gs

/-- Modelled from the spec: `validate_server_id_format` from the absent
`utils/error_handler.py`: canonical 8-4-4-4-12 UUID shape. -/
def validate_server_id_format (s : String) : Bool :=
  match splitOnChar '-' s.data with
  | [a, b, c, d, e] =>
    uuidGroup a 8 && uuidGroup b 4 && uuidGroup c 4 && uuidGroup d 4 &&
      uuidGroup e 12
  | _ => false

/-- Modelled from the spec: `validate_token` from the absent
`utils/common.py` resolves the credential for (region, workspace) from the
store and yields its bearer token, or `none` when absent. -/
def validate_token (tokens : Tokens) (region workspace : String) :
    Option String :=
  (get_token tokens region workspace).map Credential.token

/-- The arguments `with_token_validation` extracts from the bound call
(`region` defaults to ap1 via apply_defaults; a `none` workspace models the
parameter being absent or None). -/
structure ToolArgs where
  region : String := "ap1"
  workspace : Option String := none
  server_id : Option String := none
  server_ids : Option (List String) := none
deriving DecidableEq, Repr

/-- Python truthiness of the workspace argument: absent or empty. -/
def workspaceMissing (args : ToolArgs) : Bool :=
  match args.workspace with
  | none => true
  | some w => w.data.isEmpty

/-- The workspace value used once presence has been established. -/
def workspaceOf (args : ToolArgs) : String :=
  (args.workspace).getD ""

/-- The server_id check of `with_token_validation`: skipped when the
argument is absent, rejecting with a field-tagged envelope otherwise. -/
def check_server_id (args : ToolArgs) : Option Envelope :=
  match args.server_id with
  | none => none
  | some sid =>
    if validate_server_id_format sid then none
    else some (format_validation_error "server_id" sid)

/-- The server_ids list check of `with_token_validation`: every element
must pass the UUID check; the rejection names all offending elements. -/
def check_server_ids (args : ToolArgs) : Option Envelope :=
  match args.server_ids with
  | none => none
  | some ids =>
    let invalid := ids.filter (fun sid => !validate_server_id_format sid)
    if invalid.isEmpty then none
    else some (format_validation_error_ids "server_ids" invalid
      "Each server ID must be in UUID format. (e.g., 550e8400-e29b-41d4-a716-446655440000)")

/-- Outcome of the validation gate: either a rejection envelope returned to
the caller, or admission with the resolved bearer token added to kwargs. -/
inductive Gate where
  | rejected (env : Envelope)
  | accepted (token : String)
deriving DecidableEq, Repr

/-- `with_token_validation` from `utils/decorators.py`: region format, then
workspace presence, then workspace format, then server_id (if present),
then server_ids (if present), then credential resolution; the first failing
check returns its envelope and the wrapped function is not called. -/
def with_token_validation (tokens : Tokens) (args : ToolArgs) : Gate :=
  if !validate_region_format args.region then
    .rejected (format_validation_error "region" args.region)
  else if workspaceMissing args then
    .rejected (error_response "workspace parameter is required")
  else if !validate_workspace_format (workspaceOf args) then
    .rejected (format_validation_error "workspace" (workspaceOf args))
  else
    match check_server_id args with
    | some env => .rejected env
    | none =>
      match check_server_ids args with
      | some env => .rejected env
      | none =>
        match validate_token tokens args.region (workspaceOf args) with
        | none => .rejected (token_error_response args.region (workspaceOf args))
        | some tok => .accepted tok

/-- `with_error_handling` from `utils/decorators.py`: the wrapped call is
an oracle whose `Except.error` constructor models a raised exception; any
exception is converted to the standardized error envelope carrying the
operation name, the cause, and the echoed workspace and region context. -/
def with_error_handling (name workspace region : String)
    (call : Except String Envelope) : Envelope :=
  match call with
  | .ok env => env
  | .error e => error_response_ctx ("Failed in " ++ name ++ ": " ++ e)
      workspace region

/-- `mcp_tool_handler` from `utils/decorators.py`: composition of the
decorators, innermost first: error handling around the tool body, token
validation outside it, and logging outermost (logging never alters the
envelope, so it is the identity here). `inner` is the tool body, invoked
with the resolved token. -/
def mcp_tool_handler (tokens : Tokens) (name : String)
    (inner : String → Except String Envelope) (args : ToolArgs) : Envelope :=
  match with_token_validation tokens args with
  | .rejected env => env
  | .accepted tok =>
    with_error_handling name ((args.workspace).getD "unknown") args.region
      (inner tok)

/-- C1 (amended): the validation gate runs region format, workspace
presence, workspace format, server_id, server_ids, then credential
resolution, in that order; the first failing check determines the returned
envelope with status error, the format checks tag it with the offending
field, while workspace-presence and credential failures carry only a
message; any rejection surfaces unchanged for every inner operation, so
the wrapped operation is never invoked. -/
theorem dispatch_validation_order (tokens : Tokens) (args : ToolArgs)
    (name : String) (inner : String → Except String Envelope) :
    (validate_region_format args.region = false →
      mcp_tool_handler tokens name inner args =
        format_validation_error "region" args.region) ∧
    (validate_region_format args.region = true →
      workspaceMissing args = true →
      mcp_tool_handler tokens name inner args =
        error_response "workspace parameter is required") ∧
    (validate_region_format args.region = true →
      workspaceMissing args = false →
      validate_workspace_format (workspaceOf args) = false →
      mcp_tool_handler tokens name inner args =
        format_validation_error "workspace" (workspaceOf args)) ∧
    (validate_region_format args.region = true →
      workspaceMissing args = false →
      validate_workspace_format (workspaceOf args) = true →
      ∀ sid, args.server_id = some sid →
      validate_server_id_format sid = false →
      mcp_tool_handler tokens name inner args =
        format_validation_error "server_id" sid) ∧
    (validate_region_format args.region = true →
      workspaceMissing args = false →
      validate_workspace_format (workspaceOf args) = true →
      check_server_id args = none →
      ∀ ids, args.server_ids = some ids →
      (ids.filter (fun sid => !validate_server_id_format sid)).isEmpty
        = false →
      mcp_tool_handler tokens name inner args =
        format_validation_error_ids "server_ids"
          (ids.filter (fun sid => !validate_server_id_format sid))
          "Each server ID must be in UUID format. (e.g., 550e8400-e29b-41d4-a716-446655440000)") ∧
    (validate_region_format args.region = true →
      workspaceMissing args = false →
      validate_workspace_format (workspaceOf args) = true →
      check_server_id args = none →
      check_server_ids args = none →
      validate_token tokens args.region (workspaceOf args) = none →
      mcp_tool_handler tokens name inner args =
        token_error_response args.region (workspaceOf args)) ∧
    (∀ env, with_token_validation tokens args = .rejected env →
      mcp_tool_handler tokens name inner args = env) := by
  refine ⟨?_, ?_, ?_, ?_, ?_, ?_, ?_⟩
  · intro h
    simp [mcp_tool_handler, with_token_validation, h]
  · intro h1 h2
    simp [mcp_tool_handler, with_token_validation, h1, h2]
  · intro h1 h2 h3
    simp [mcp_tool_handler, with_token_validation, h1, h2, h3]
  · intro h1 h2 h3 sid hsid hbad
    simp [mcp_tool_handler, with_token_validation, h1, h2, h3,
      check_server_id, hsid, hbad]
  · intro h1 h2 h3 h4 ids hids hinv
    simp [mcp_tool_handler, with_token_validation, h1, h2, h3, h4,
      check_server_ids, hids, hinv]
  · intro h1 h2 h3 h4 h5 h6
    simp [mcp_tool_handler, with_token_validation, h1, h2, h3, h4, h5, h6]
  · intro env h
    simp [mcp_tool_handler, h]

/-- C1 witness: with workspace bad workspace! and region zzz together, the
surfaced envelope is the region rejection, tagged field region. -/
theorem dispatch_validation_order_witness :
    mcp_tool_handler [] "list_servers"
      (fun _ => .ok { status := "success" })
      { region := "zzz", workspace := some "bad workspace!" } =
      format_validation_error "region" "zzz" :=
  (dispatch_validation_order []
    { region := "zzz", workspace := some "bad workspace!" }
    "list_servers" (fun _ => .ok { status := "success" })).1 (by decide)

/-- C1 counterexample: with a valid region and workspace but no stored
credential, the first failing check is credential resolution, and the
returned envelope has status error but no field tag, refuting the claim
that every first failing check names the offending parameter in field. -/
theorem dispatch_first_failure_without_field :
    (mcp_tool_handler [] "list_servers"
      (fun _ => .ok { status := "success" })
      { workspace := some "demo" }).status = "error" ∧
    (mcp_tool_handler [] "list_servers"
      (fun _ => .ok { status := "success" })
      { workspace := some "demo" }).field = none := by
  decide

/-- C2: any exception raised by the wrapped operation (the oracle returning
Except.error) is caught by the error-handling layer and converted into the
standardized error envelope with message Failed in name: cause and the
echoed context; the handler is a total function into Envelope, so no
exception crosses the tool-facing boundary. -/
theorem error_handling_conversion (tokens : Tokens) (args : ToolArgs)
    (name cause tok : String) (inner : String → Except String Envelope)
    (hgate : with_token_validation tokens args = .accepted tok)
    (hraise : inner tok = .error cause) :
    mcp_tool_handler tokens name inner args =
      error_response_ctx ("Failed in " ++ name ++ ": " ++ cause)
        ((args.workspace).getD "unknown") args.region := by
  simp [mcp_tool_handler, hgate, with_error_handling, hraise]

/-- C2 witness: a concrete tool body that raises is converted to the
templated error envelope. -/
theorem error_handling_conversion_witness :
    mcp_tool_handler (set_token [] "ap1" "demo" "tok-1").1 "get_server_list"
      (fun _ => .error "boom") { workspace := some "demo" } =
      error_response_ctx "Failed in get_server_list: boom" "demo" "ap1" :=
  error_handling_conversion (set_token [] "ap1" "demo" "tok-1").1
    { workspace := some "demo" } "get_server_list" "boom" "tok-1"
    (fun _ => .error "boom") (by decide) rfl

/-- `execute_command` from `tools/command_tools.py`: resolves the token
directly from the store, posts the command to the remote API (the `post`
oracle; `Except.error` models an exception raised by the HTTP call), and
wraps the outcome; every exception is caught and converted to an error
envelope, so the function is total. Only the envelope fields the claims
inspect are carried. -/
def execute_command (tokens : Tokens) (post : String → Except String Body)
    (server_id command workspace shell region : String) : Envelope :=
  match get_token tokens region workspace with
  | none =>
    error_response ("No token found for " ++ workspace ++ "." ++ region ++
      ". Please set token first.")
  | some _ =>
    match post server_id with
    | .error e => error_response ("Failed to execute command: " ++ e)
    | .ok body =>
      { status := "success", data := some body,
        region := some region, workspace := some workspace }

/-- `get_command_result` from `tools/command_tools.py`: fetches one command
record; the oracle is indexed by the poll iteration to model the remote
state changing over time. -/
def get_command_result (tokens : Tokens)
    (remote : Nat → Except String CommandInfo) (i : Nat)
    (command_id workspace region : String) : Envelope :=
  match get_token tokens region workspace with
  | none =>
    error_response ("No token found for " ++ workspace ++ "." ++ region ++
      ". Please set token first.")
  | some _ =>
    match remote i with
    | .error e => error_response ("Failed to get command result: " ++ e)
    | .ok info =>
      { status := "success", data := some (Body.one info),
        command_id := some command_id,
        region := some region, workspace := some workspace }

/-- The polling loop of `execute_command_sync`: one iteration per elapsed
second (the source sleeps a fixed one-second interval between checks, so a
caller-supplied timeout of t seconds yields at most t iterations, modelled
as fuel); a successful poll whose record carries a non-null finished_at
returns the success envelope, otherwise the loop continues, and exhausted
fuel returns the timeout envelope naming the command identifier. -/
def sync_poll (tokens : Tokens) (remote : Nat → Except String CommandInfo)
    (command_id workspace region : String) (timeout : Nat) :
    Nat → Nat → Envelope
  | 0, _ =>
    { status := "timeout",
      message := some ("Command execution timed out after " ++
        toString timeout ++ " seconds"),
      command_id := some command_id,
      region := some region, workspace := some workspace }
  | fuel + 1, i =>
    let r := get_command_result tokens remote i command_id workspace region
    if r.status = "success" then
      match r.data with
      | some (Body.one info) =>
        match info.finished_at with
        | some _ =>
          { status := "success", data := r.data,
            command_id := some command_id,
            region := some region, workspace := some workspace }
        | none =>
          sync_poll tokens remote command_id workspace region timeout fuel
            (i + 1)
      | _ =>
        sync_poll tokens remote command_id workspace region timeout fuel
          (i + 1)
    else
      sync_poll tokens remote command_id workspace region timeout fuel
        (i + 1)

/-- `execute_command_sync` from `tools/command_tools.py`: submits the
command, returns any non-success submission envelope unchanged, extracts
the command identifier from either the object or the array response shape,
then polls until completion or timeout. -/
def execute_command_sync (tokens : Tokens)
    (post : String → Except String Body)
    (remote : Nat → Except String CommandInfo)
    (server_id command workspace shell : String) (timeout : Nat)
    (region : String) : Envelope :=
  let exec_result :=
    execute_command tokens post server_id command workspace shell region
  if exec_result.status ≠ "success" then exec_result
  else
    match exec_result.data with
    | some (Body.many []) =>
      error_response "No command data returned from execute_command"
    | some (Body.many (c :: _)) =>
      sync_poll tokens remote c.id workspace region timeout timeout 0
    | some (Body.one c) =>
      sync_poll tokens remote c.id workspace region timeout timeout 0
    | _ =>
      error_response "Failed to execute command synchronously: missing id"

/-- The per-target envelope the parallel branch builds when the gathered
result is an exception object. -/
def exceptionEnvelope (e : String) : Envelope :=
  { status := "error", message := some ("Exception occurred: " ++ e) }

/-- One step of the result-aggregation loop of
`execute_command_multi_server`: store the target envelope under its server
identifier and bump exactly one of the two counters. -/
def deployStep (acc : List (String × Envelope) × Nat × Nat) (sid : String)
    (r : Except String Envelope) : List (String × Envelope) × Nat × Nat :=
  match r with
  | .error e => (insertKey acc.1 sid (exceptionEnvelope e), acc.2.1, acc.2.2 + 1)
  | .ok env =>
    if env.status = "success" then
      (insertKey acc.1 sid env, acc.2.1 + 1, acc.2.2)
    else
      (insertKey acc.1 sid env, acc.2.1, acc.2.2 + 1)

/-- The parallel branch: gather settles every task (exceptions returned as
values), then the loop aggregates in the order of `server_ids`. -/
def processResults (exec1 : String → Except String Envelope)
    (ids : List String) (acc : List (String × Envelope) × Nat × Nat) :
    List (String × Envelope) × Nat × Nat :=
  match ids with
  | [] => acc
  | sid :: rest => processResults exec1 rest (deployStep acc sid (exec1 sid))

/-- The sequential branch: targets run one at a time; the branch has no
per-target exception conversion, so a raised exception aborts the
remaining targets and propagates to the outer handler. -/
def seqResults (exec1 : String → Except String Envelope)
    (ids : List String) (acc : List (String × Envelope) × Nat × Nat) :
    Except String (List (String × Envelope) × Nat × Nat) :=
  match ids with
  | [] => .ok acc
  | sid :: rest =>
    match exec1 sid with
    | .error e => .error e
    | .ok env => seqResults exec1 rest (deployStep acc sid (.ok env))

/-- The aggregate dictionary returned by `execute_command_multi_server`
(the fields the claims inspect). -/
structure MultiResult where
  status : String
  deploy_shell_results : List (String × Envelope)
  command : String
  total_servers : Nat
  successful_count : Nat
  failed_count : Nat
  execution_type : String
  region : String
  workspace : String
deriving DecidableEq, Repr

/-- `execute_command_multi_server` returns either a plain envelope (empty
list, missing credential, or an exception reaching the outer handler) or
the aggregate batch dictionary. -/
inductive MultiOut where
  | failure (env : Envelope)
  | batch (r : MultiResult)
deriving DecidableEq, Repr

/-- `execute_command_multi_server` from `tools/command_tools.py`, with the
per-target invocation abstracted as `exec1` (in the source this is
`execute_command`; `Except.error` models a raised exception). The batch
status is success whenever aggregation completes, regardless of individual
outcomes. -/
def execute_command_multi_server (tokens : Tokens)
    (exec1 : String → Except String Envelope) (server_ids : List String)
    (command workspace region : String) (parallel : Bool) : MultiOut :=
  if server_ids.isEmpty then
    .failure (error_response "server_ids cannot be empty")
  else
    match get_token tokens region workspace with
    | none =>
      .failure (error_response ("No token found for " ++ workspace ++ "." ++
        region ++ ". Please set token first."))
    | some _ =>
      if parallel then
        let acc := processResults exec1 server_ids ([], 0, 0)
        .batch { status := "success", deploy_shell_results := acc.1,
                 command := command, total_servers := server_ids.length,
                 successful_count := acc.2.1, failed_count := acc.2.2,
                 execution_type := "parallel", region := region,
                 workspace := workspace }
      else
        match seqResults exec1 server_ids ([], 0, 0) with
        | .error e =>
          .failure (error_response ("Deploy Shell execution failed: " ++ e))
        | .ok acc =>
          .batch { status := "success", deploy_shell_results := acc.1,
                   command := command, total_servers := server_ids.length,
                   successful_count := acc.2.1, failed_count := acc.2.2,
                   execution_type := "sequential", region := region,
                   workspace := workspace }

/-- The source composition: the per-target invocation is the real
`execute_command`, which catches every exception of its own body and
therefore never raises into the dispatcher. -/
def execute_command_multi_server_impl (tokens : Tokens)
    (post : String → Except String Body) (server_ids : List String)
    (command workspace shell region : String) (parallel : Bool) : MultiOut :=
  execute_command_multi_server tokens
    (fun sid => .ok (execute_command tokens post sid command workspace
      shell region))
    server_ids command workspace region parallel

/-- The settled outcome of one target under the parallel aggregation. -/
def deployEnvelope (exec1 : String → Except String Envelope)
    (sid : String) : Envelope :=
  match exec1 sid with
  | .error e => exceptionEnvelope e
  | .ok env => env

/-- Extract the batch record of a multi-server outcome, if any. -/
def batchOf : MultiOut → Option MultiResult
  | .failure _ => none
  | .batch r => some r

theorem deployStep_counts (acc : List (String × Envelope) × Nat × Nat)
    (sid : String) (r : Except String Envelope) :
    (deployStep acc sid r).2.1 + (deployStep acc sid r).2.2 =
      acc.2.1 + acc.2.2 + 1 := by
  cases r with
  | error e => simp [deployStep]; omega
  | ok env =>
    by_cases h : env.status = "success" <;> simp [deployStep, h] <;> omega

theorem deployStep_lookup_ne (acc : List (String × Envelope) × Nat × Nat)
    (sid : String) (r : Except String Envelope) (k : String) (h : k ≠ sid) :
    lookupKey (deployStep acc sid r).1 k = lookupKey acc.1 k := by
  cases r with
  | error e => simp [deployStep, lookupKey_insertKey_ne _ _ _ _ h]
  | ok env =>
    by_cases hs : env.status = "success" <;>
      simp [deployStep, hs, lookupKey_insertKey_ne _ _ _ _ h]

theorem length_insertKey_absent {α : Type} (l : List (String × α))
    (k : String) (v : α) (h : lookupKey l k = none) :
    (insertKey l k v).length = l.length + 1 := by
  induction l with
  | nil => simp [insertKey]
  | cons p rest ih =>
    by_cases hp : p.1 = k
    · simp [lookupKey, hp] at h
    · simp [insertKey, hp, ih (by simpa [lookupKey, hp] using h)]

theorem deployStep_length_absent (acc : List (String × Envelope) × Nat × Nat)
    (sid : String) (r : Except String Envelope)
    (h : lookupKey acc.1 sid = none) :
    (deployStep acc sid r).1.length = acc.1.length + 1 := by
  cases r with
  | error e => simp [deployStep, length_insertKey_absent _ _ _ h]
  | ok env =>
    by_cases hs : env.status = "success" <;>
      simp [deployStep, hs, length_insertKey_absent _ _ _ h]

theorem counts_processResults (exec1 : String → Except String Envelope)
    (ids : List String) (acc : List (String × Envelope) × Nat × Nat) :
    (processResults exec1 ids acc).2.1 +
      (processResults exec1 ids acc).2.2 =
      acc.2.1 + acc.2.2 + ids.length := by
  induction ids generalizing acc with
  | nil => simp [processResults]
  | cons sid rest ih =>
    rw [processResults, ih (deployStep acc sid (exec1 sid)),
      deployStep_counts]
    simp
    omega

theorem lookup_processResults_not_mem
    (exec1 : String → Except String Envelope) (ids : List String)
    (acc : List (String × Envelope) × Nat × Nat) (sid : String)
    (h : sid ∉ ids) :
    lookupKey (processResults exec1 ids acc).1 sid = lookupKey acc.1 sid := by
  induction ids generalizing acc with
  | nil => rfl
  | cons a rest ih =>
    have hne : sid ≠ a := fun he => h (he ▸ List.mem_cons_self a rest)
    have hrest : sid ∉ rest := fun hm => h (List.mem_cons_of_mem a hm)
    rw [processResults, ih _ hrest, deployStep_lookup_ne _ _ _ _ hne]

theorem lookup_processResults_mem
    (exec1 : String → Except String Envelope) (ids : List String)
    (acc : List (String × Envelope) × Nat × Nat) (sid : String)
    (h : sid ∈ ids) :
    lookupKey (processResults exec1 ids acc).1 sid =
      some (deployEnvelope exec1 sid) := by
  induction ids generalizing acc with
  | nil => cases h
  | cons a rest ih =>
    rw [processResults]
    by_cases hmem : sid ∈ rest
    · exact ih _ hmem
    · have hsa : sid = a := by
        rcases List.mem_cons.mp h with h1 | h1
        · exact h1
        · exact absurd h1 hmem
      subst hsa
      rw [lookup_processResults_not_mem _ _ _ _ hmem]
      cases hr : exec1 sid with
      | error e =>
        simp [deployStep, hr, deployEnvelope, lookupKey_insertKey_self]
      | ok env =>
        by_cases hs : env.status = "success" <;>
          simp [deployStep, hr, hs, deployEnvelope, lookupKey_insertKey_self]

theorem length_processResults_nodup
    (exec1 : String → Except String Envelope) (ids : List String)
    (acc : List (String × Envelope) × Nat × Nat) (hnd : ids.Nodup)
    (hdis : ∀ sid ∈ ids, lookupKey acc.1 sid = none) :
    (processResults exec1 ids acc).1.length = acc.1.length + ids.length := by
  induction ids generalizing acc with
  | nil => simp [processResults]
  | cons a rest ih =>
    rw [processResults]
    obtain ⟨hna, hndr⟩ := List.nodup_cons.mp hnd
    have hdis2 : ∀ sid ∈ rest,
        lookupKey (deployStep acc a (exec1 a)).1 sid = none := by
      intro sid hm
      have hne : sid ≠ a := fun he => hna (he ▸ hm)
      rw [deployStep_lookup_ne _ _ _ _ hne]
      exact hdis sid (List.mem_cons_of_mem a hm)
    rw [ih _ hndr hdis2,
      deployStep_length_absent _ _ _ (hdis a (List.mem_cons_self a rest))]
    simp [List.length_cons]
    omega

theorem seqResults_of_total (f : String → Envelope) (ids : List String)
    (acc : List (String × Envelope) × Nat × Nat) :
    seqResults (fun sid => .ok (f sid)) ids acc =
      .ok (processResults (fun sid => .ok (f sid)) ids acc) := by
  induction ids generalizing acc with
  | nil => rfl
  | cons a rest ih =>
    rw [seqResults, processResults]
    exact ih _

/-- The batch record both execution branches aggregate (they differ only
in the execution_type string once every per-target invocation settles). -/
def aggregatedBatch (exec1 : String → Except String Envelope)
    (ids : List String) (command region workspace mode : String) :
    MultiResult :=
  { status := "success",
    deploy_shell_results := (processResults exec1 ids ([], 0, 0)).1,
    command := command, total_servers := ids.length,
    successful_count := (processResults exec1 ids ([], 0, 0)).2.1,
    failed_count := (processResults exec1 ids ([], 0, 0)).2.2,
    execution_type := mode, region := region, workspace := workspace }

theorem multi_server_parallel_eq (tokens : Tokens)
    (exec1 : String → Except String Envelope) (ids : List String)
    (command workspace region : String) (cred : Credential)
    (hne : ids.isEmpty = false)
    (hcred : get_token tokens region workspace = some cred) :
    execute_command_multi_server tokens exec1 ids command workspace region
      true = .batch (aggregatedBatch exec1 ids command region workspace
        "parallel") := by
  simp [execute_command_multi_server, hne, hcred, aggregatedBatch]

theorem multi_server_sequential_eq (tokens : Tokens) (f : String → Envelope)
    (ids : List String) (command workspace region : String)
    (cred : Credential) (hne : ids.isEmpty = false)
    (hcred : get_token tokens region workspace = some cred) :
    execute_command_multi_server tokens (fun sid => .ok (f sid)) ids command
      workspace region false =
      .batch (aggregatedBatch (fun sid => .ok (f sid)) ids command region
        workspace "sequential") := by
  simp [execute_command_multi_server, hne, hcred, seqResults_of_total,
    aggregatedBatch]

/-- C3 (amended): with a non-empty server_ids list and a resolvable
credential the batch envelope has status success even when every target
failed, and successful_count + failed_count = total_servers = the length of
server_ids; the per-target mapping is keyed by server identifier, so its
entry count equals total_servers when the identifiers are pairwise
distinct (duplicates collapse onto one key). -/
theorem multi_server_batch_invariant (tokens : Tokens)
    (post : String → Except String Body) (server_ids : List String)
    (command workspace shell region : String) (parallel : Bool)
    (htok : (get_token tokens region workspace).isSome = true)
    (hne : server_ids.isEmpty = false) :
    ∃ r, execute_command_multi_server_impl tokens post server_ids command
        workspace shell region parallel = .batch r ∧
      r.status = "success" ∧
      r.successful_count + r.failed_count = r.total_servers ∧
      r.total_servers = server_ids.length ∧
      (server_ids.Nodup →
        r.deploy_shell_results.length = r.total_servers) := by
  obtain ⟨cred, hcred⟩ := Option.isSome_iff_exists.mp htok
  have hcounts := counts_processResults
    (fun sid => .ok (execute_command tokens post sid command workspace
      shell region)) server_ids ([], 0, 0)
  cases parallel with
  | true =>
    refine ⟨_, multi_server_parallel_eq tokens _ server_ids command
      workspace region cred hne hcred, rfl, ?_, rfl, ?_⟩
    · simpa [aggregatedBatch] using hcounts
    · intro hnd
      have hlen := length_processResults_nodup
        (fun sid => .ok (execute_command tokens post sid command workspace
          shell region)) server_ids ([], 0, 0) hnd (fun _ _ => rfl)
      simpa [aggregatedBatch] using hlen
  | false =>
    refine ⟨_, multi_server_sequential_eq tokens
      (fun sid => execute_command tokens post sid command workspace shell
        region) server_ids command workspace region cred hne hcred,
      rfl, ?_, rfl, ?_⟩
    · simpa [aggregatedBatch] using hcounts
    · intro hnd
      have hlen := length_processResults_nodup
        (fun sid => .ok (execute_command tokens post sid command workspace
          shell region)) server_ids ([], 0, 0) hnd (fun _ _ => rfl)
      simpa [aggregatedBatch] using hlen

/-- C3 witness: two distinct targets whose remote calls both fail still
produce a batch-level success with 0 + 2 = 2 = 2 entries. -/
theorem multi_server_batch_invariant_witness :
    ∃ r, execute_command_multi_server_impl
        (set_token [] "ap1" "demo" "tok-1").1 (fun _ => .error "net down")
        ["s1", "s2"] "uptime" "demo" "internal" "ap1" true = .batch r ∧
      r.status = "success" ∧
      r.successful_count + r.failed_count = r.total_servers ∧
      r.total_servers = ["s1", "s2"].length ∧
      (["s1", "s2"].Nodup →
        r.deploy_shell_results.length = r.total_servers) :=
  multi_server_batch_invariant (set_token [] "ap1" "demo" "tok-1").1
    (fun _ => .error "net down") ["s1", "s2"] "uptime" "demo" "internal"
    "ap1" true (by decide) (by decide)

/-- C3 counterexample: a duplicated server identifier makes the per-target
mapping hold one entry while total_servers and the counters report two, so
the three quantities are not all equal as the claim states. -/
theorem multi_server_per_target_size_counterexample :
    (batchOf (execute_command_multi_server_impl
        (set_token [] "ap1" "demo" "tok-1").1
        (fun _ => .ok (Body.raw "queued")) ["s1", "s1"] "uptime" "demo"
        "internal" "ap1" true)).map
      (fun r => (r.status, r.total_servers,
        r.successful_count + r.failed_count,
        r.deploy_shell_results.length)) =
      some ("success", 2, 2, 1) := by
  decide

/-- C4: an exception inside one target's per-target invocation is caught
and becomes that single target's error envelope while every sibling target
still appears in the aggregated mapping. First part: the dispatcher-level
conversion of a gathered exception object in the parallel branch. Second
part: the source composition, where execute_command converts the raised
remote exception itself, in both parallel and sequential modes. -/
theorem multi_server_failure_isolation (tokens : Tokens)
    (post : String → Except String Body)
    (exec1 : String → Except String Envelope) (server_ids : List String)
    (command workspace shell region : String) (parallel : Bool)
    (htok : (get_token tokens region workspace).isSome = true)
    (hne : server_ids.isEmpty = false) :
    (∀ sid ∈ server_ids, ∀ e, exec1 sid = .error e →
      ∃ r, execute_command_multi_server tokens exec1 server_ids command
          workspace region true = .batch r ∧
        lookupKey r.deploy_shell_results sid = some (exceptionEnvelope e) ∧
        ∀ sid2 ∈ server_ids,
          (lookupKey r.deploy_shell_results sid2).isSome = true) ∧
    (∀ sid ∈ server_ids, ∀ e, post sid = .error e →
      ∃ r, execute_command_multi_server_impl tokens post server_ids command
          workspace shell region parallel = .batch r ∧
        lookupKey r.deploy_shell_results sid =
          some (error_response ("Failed to execute command: " ++ e)) ∧
        ∀ sid2 ∈ server_ids,
          (lookupKey r.deploy_shell_results sid2).isSome = true) := by
  obtain ⟨cred, hcred⟩ := Option.isSome_iff_exists.mp htok
  constructor
  · intro sid hmem e herr
    refine ⟨_, multi_server_parallel_eq tokens exec1 server_ids command
      workspace region cred hne hcred, ?_, ?_⟩
    · show lookupKey (processResults exec1 server_ids ([], 0, 0)).1 sid = _
      rw [lookup_processResults_mem _ _ _ _ hmem]
      simp [deployEnvelope, herr]
    · intro sid2 hmem2
      show (lookupKey (processResults exec1 server_ids
        ([], 0, 0)).1 sid2).isSome = true
      rw [lookup_processResults_mem _ _ _ _ hmem2]
      rfl
  · intro sid hmem e herr
    have hcmd : execute_command tokens post sid command workspace shell
        region = error_response ("Failed to execute command: " ++ e) := by
      simp [execute_command, hcred, herr]
    have hlk : ∀ sid2 ∈ server_ids,
        lookupKey (processResults (fun s => Except.ok (execute_command
          tokens post s command workspace shell region)) server_ids
          ([], 0, 0)).1 sid2 =
        some (execute_command tokens post sid2 command workspace shell
          region) := by
      intro sid2 hmem2
      rw [lookup_processResults_mem _ _ _ _ hmem2]
      rfl
    cases parallel with
    | true =>
      refine ⟨_, multi_server_parallel_eq tokens _ server_ids command
        workspace region cred hne hcred, ?_, ?_⟩
      · show lookupKey (processResults _ server_ids ([], 0, 0)).1 sid = _
        rw [hlk sid hmem, hcmd]
      · intro sid2 hmem2
        show (lookupKey (processResults _ server_ids
          ([], 0, 0)).1 sid2).isSome = true
        rw [hlk sid2 hmem2]
        rfl
    | false =>
      refine ⟨_, multi_server_sequential_eq tokens
        (fun s => execute_command tokens post s command workspace shell
          region) server_ids command workspace region cred hne hcred,
        ?_, ?_⟩
      · show lookupKey (processResults _ server_ids ([], 0, 0)).1 sid = _
        rw [hlk sid hmem, hcmd]
      · intro sid2 hmem2
        show (lookupKey (processResults _ server_ids
          ([], 0, 0)).1 sid2).isSome = true
        rw [hlk sid2 hmem2]
        rfl

/-- C4 witness: one failing target among two, exercised through the
dispatcher conversion (parallel) and the source composition (sequential
mode selected): the failing target gets its error envelope, the sibling is
still present. -/
theorem multi_server_failure_isolation_witness :
    ((∀ sid ∈ ["bad", "good"], ∀ e,
      (fun s => if s = "bad" then Except.error "boom"
        else Except.ok ({ status := "success" } : Envelope)) sid =
          .error e →
      ∃ r, execute_command_multi_server (set_token [] "ap1" "demo"
          "tok-1").1
          (fun s => if s = "bad" then Except.error "boom"
            else Except.ok ({ status := "success" } : Envelope))
          ["bad", "good"] "uptime" "demo" "ap1" true = .batch r ∧
        lookupKey r.deploy_shell_results sid = some (exceptionEnvelope e) ∧
        ∀ sid2 ∈ ["bad", "good"],
          (lookupKey r.deploy_shell_results sid2).isSome = true) ∧
    (∀ sid ∈ ["bad", "good"], ∀ e,
      (fun s => if s = "bad" then Except.error "net down"
        else Except.ok (Body.raw "queued")) sid = .error e →
      ∃ r, execute_command_multi_server_impl (set_token [] "ap1" "demo"
          "tok-1").1
          (fun s => if s = "bad" then Except.error "net down"
            else Except.ok (Body.raw "queued"))
          ["bad", "good"] "uptime" "demo" "internal" "ap1" false =
            .batch r ∧
        lookupKey r.deploy_shell_results sid =
          some (error_response ("Failed to execute command: " ++ e)) ∧
        ∀ sid2 ∈ ["bad", "good"],
          (lookupKey r.deploy_shell_results sid2).isSome = true)) :=
  multi_server_failure_isolation (set_token [] "ap1" "demo" "tok-1").1
    (fun s => if s = "bad" then Except.error "net down"
      else Except.ok (Body.raw "queued"))
    (fun s => if s = "bad" then Except.error "boom"
      else Except.ok ({ status := "success" } : Envelope))
    ["bad", "good"] "uptime" "demo" "internal" "ap1" false (by decide)
    (by decide)

theorem sync_poll_never_finished (tokens : Tokens)
    (remote : Nat → Except String CommandInfo)
    (command_id workspace region : String) (timeout : Nat)
    (hnofin : ∀ i info, remote i = .ok info → info.finished_at = none) :
    ∀ fuel i, sync_poll tokens remote command_id workspace region timeout
      fuel i =
      { status := "timeout",
        message := some ("Command execution timed out after " ++
          toString timeout ++ " seconds"),
        command_id := some command_id,
        region := some region, workspace := some workspace } := by
  intro fuel
  induction fuel with
  | zero => intro i; rfl
  | succ n ih =>
    intro i
    cases htk : get_token tokens region workspace with
    | none => simp [sync_poll, get_command_result, htk, error_response, ih]
    | some cred =>
      cases hr : remote i with
      | error e =>
        simp [sync_poll, get_command_result, htk, hr, error_response, ih]
      | ok info =>
        have hfin := hnofin i info hr
        simp [sync_poll, get_command_result, htk, hr, hfin, ih]

/-- C8: when the submission succeeds but no poll ever reports a non-null
finished_at, the synchronous wait returns the timeout envelope naming the
command identifier; the embedding is a total function iterating once per
second of the caller-supplied timeout, so it neither raises nor loops
forever. -/
theorem sync_timeout_envelope (tokens : Tokens)
    (post : String → Except String Body)
    (remote : Nat → Except String CommandInfo)
    (server_id command workspace shell region cid : String)
    (fin : Option String) (timeout : Nat)
    (htok : (get_token tokens region workspace).isSome = true)
    (hpost : post server_id = .ok (Body.one ⟨cid, fin⟩))
    (hnofin : ∀ i info, remote i = .ok info → info.finished_at = none) :
    execute_command_sync tokens post remote server_id command workspace
      shell timeout region =
      { status := "timeout",
        message := some ("Command execution timed out after " ++
          toString timeout ++ " seconds"),
        command_id := some cid,
        region := some region, workspace := some workspace } := by
  obtain ⟨cred, hcred⟩ := Option.isSome_iff_exists.mp htok
  have hexec : execute_command tokens post server_id command workspace
      shell region =
      { status := "success",
        data := some (Body.one { id := cid, finished_at := fin }),
        region := some region, workspace := some workspace } := by
    simp [execute_command, hcred, hpost]
  rw [execute_command_sync, hexec]
  simpa using sync_poll_never_finished tokens remote cid workspace region
    timeout hnofin timeout 0

/-- C8 witness: a command that stays unfinished for a two-second timeout
yields the timeout envelope carrying its identifier. -/
theorem sync_timeout_envelope_witness :
    execute_command_sync (set_token [] "ap1" "demo" "tok-1").1
      (fun _ => .ok (Body.one { id := "cmd-1", finished_at := none }))
      (fun _ => .ok { id := "cmd-1", finished_at := none })
      "s1" "sleep 100" "demo" "bash" 2 "ap1" =
      { status := "timeout",
        message := some "Command execution timed out after 2 seconds",
        command_id := some "cmd-1",
        region := some "ap1", workspace := some "demo" } :=
  sync_timeout_envelope (set_token [] "ap1" "demo" "tok-1").1
    (fun _ => .ok (Body.one { id := "cmd-1", finished_at := none }))
    (fun _ => .ok { id := "cmd-1", finished_at := none })
    "s1" "sleep 100" "demo" "bash" "ap1" "cmd-1" none 2 (by decide) rfl
    (fun i info h => by cases h; rfl)

/-- Modelled from the spec: `valid_path(path, must_be_absolute,
forbid_traversal)`, the intended web-file-transfer path predicate: rejects
relative paths where an absolute path is required, any parent-directory
traversal segment, and any embedded null byte. -/
def valid_path (path : String) (must_be_absolute forbid_traversal : Bool) :
    Bool :=
  (!must_be_absolute || path.data.head? == some '/') &&
  (!forbid_traversal ||
    !(splitOnChar '/' path.data).contains ['.', '.']) &&
  !path.data.contains (Char.ofNat 0)

/-- `webftp_upload_file` from `tools/webftp_tools.py` as it stands in the
source: token lookup, then the upload POST (the oracle takes the file path
and data; `Except.error` models a raised exception), with no validation of
the file path anywhere before the network call. -/
def webftp_upload_file (tokens : Tokens)
    (post : String → String → Except String Body)
    (session_id file_path file_data workspace region : String) : Envelope :=
  match get_token tokens region workspace with
  | none =>
    error_response ("No token found for " ++ workspace ++ "." ++ region ++
      ". Please set token first.")
  | some _ =>
    match post file_path file_data with
    | .error e => error_response ("Failed to upload file: " ++ e)
    | .ok body =>
      { status := "success", data := some body,
        region := some region, workspace := some workspace }

/-- C9: a traversal path that the intended `valid_path` predicate rejects
is nevertheless passed to the upload POST by `webftp_upload_file`, which
returns a plain success envelope with no field tag: the source performs no
path validation before the network call, contradicting the spec and the
repository's own tests. -/
theorem webftp_upload_no_path_validation :
    valid_path "../../etc/passwd" true true = false ∧
    webftp_upload_file (set_token [] "ap1" "demo" "tok-1").1
      (fun p _ => .ok (Body.raw ("uploaded " ++ p)))
      "sess-1" "../../etc/passwd" "hello" "demo" "ap1" =
      { status := "success",
        data := some (Body.raw "uploaded ../../etc/passwd"),
        region := some "ap1", workspace := some "demo" } := by
  constructor
  · decide
  · rfl

/-- The time-range record `get_server_metrics_summary` reports (start and
end as seconds on an integer timeline; hours as echoed in the summary). -/
structure TimeRange where
  startTime : Int
  endTime : Int
  hours : Int
deriving DecidableEq, Repr

/-- The hour clamp at the top of `get_server_metrics_summary` in
`tools/metrics_tools.py`: hours above 168 (one week) are reduced to 168,
all other values pass unchanged. -/
def clampSummaryHours (hours : Int) : Int :=
  if hours > 168 then 168 else hours

/-- The time-range computation of `get_server_metrics_summary`: the end is
the current instant, the start lies the clamped number of hours earlier
(3600 seconds per hour), and the summary echoes the clamped value. -/
def metrics_summary_time_range (now hours : Int) : TimeRange :=
  let h := clampSummaryHours hours
  { startTime := now - h * 3600, endTime := now, hours := h }

/-- C10: the reported time_range.hours never exceeds 168, values of 168 or
less are used unchanged, values above 168 are silently clamped to 168, and
the queried window spans exactly the reported hours, hence never more than
168 hours. -/
theorem metrics_summary_hours_clamped (now hours : Int) :
    (metrics_summary_time_range now hours).hours ≤ 168 ∧
    (hours ≤ 168 → (metrics_summary_time_range now hours).hours = hours) ∧
    (168 < hours → (metrics_summary_time_range now hours).hours = 168) ∧
    (metrics_summary_time_range now hours).endTime -
      (metrics_summary_time_range now hours).startTime =
      (metrics_summary_time_range now hours).hours * 3600 ∧
    (metrics_summary_time_range now hours).endTime -
      (metrics_summary_time_range now hours).startTime ≤ 168 * 3600 := by
  rcases lt_or_le (168 : Int) hours with h | h
  · have he : metrics_summary_time_range now hours =
        ⟨now - 168 * 3600, now, 168⟩ := by
      simp [metrics_summary_time_range, clampSummaryHours, h]
    rw [he]
    exact ⟨show (168 : Int) ≤ 168 by omega,
      fun hle => absurd h (not_lt.mpr hle), fun _ => rfl,
      show now - (now - 168 * 3600) = 168 * 3600 by ring,
      show now - (now - 168 * 3600) ≤ 168 * 3600 by omega⟩
  · have he : metrics_summary_time_range now hours =
        ⟨now - hours * 3600, now, hours⟩ := by
      simp [metrics_summary_time_range, clampSummaryHours, not_lt.mpr h]
    rw [he]
    exact ⟨h, fun _ => rfl, fun hgt => absurd hgt (not_lt.mpr h),
      show now - (now - hours * 3600) = hours * 3600 by ring,
      show now - (now - hours * 3600) ≤ 168 * 3600 by omega⟩

/-- C10 witness: 200 requested hours are clamped to 168 while 24 requested
hours pass through unchanged. -/
theorem metrics_summary_hours_clamped_witness :
    ((metrics_summary_time_range 0 200).hours ≤ 168 ∧
      (metrics_summary_time_range 0 200).hours = 168) ∧
    (metrics_summary_time_range 0 24).hours = 24 :=
  ⟨⟨(metrics_summary_hours_clamped 0 200).1,
    (metrics_summary_hours_clamped 0 200).2.2.1 (by decide)⟩,
   (metrics_summary_hours_clamped 0 24).2.1 (by decide)⟩

end AlpaconMCP
